import Mathlib

/-!
Verification of the Incremental Windowed List Controller of
`jobairalsarkar1/monorepo-check` (client list pages).  The definitions below
are shallow embeddings of the relevant source fragments of
`apps/client/src/pages/UserPage.tsx`, `Products.tsx`, `Reviews.tsx` and
`SomePage.tsx`; pixel quantities are rationals, machine integers are `Nat`
or `Int`, and timer/fetch behaviour is modelled as explicit state machines.
-/

/- ## WindowProjector -/

/-- Modelled from the spec: the `WindowProjector.project` computation.  The
visible-range arithmetic itself lives in the third-party
`@tanstack/react-virtual` package (only its call site, `rowVirtualizer` in
`UserPage.tsx`, is in the repository), so the projection is taken from the
spec's own formulas: `start = max(0, floor(scrollOffset / itemHeight) -
overscan)` and `end = min(itemCount, ceil((scrollOffset + viewportHeight) /
itemHeight) + overscan)`. -/
def WindowProjector.project (scrollOffset viewportHeight itemHeight : ℚ)
    (itemCount overscan : ℕ) : ℤ × ℤ :=
  (max 0 (⌊scrollOffset / itemHeight⌋ - overscan),
   min (itemCount : ℤ) (⌈(scrollOffset + viewportHeight) / itemHeight⌉ + overscan))

/- ## FilterEngine: case-insensitive substring matching -/

/-- JavaScript `haystack.includes(needle)` on the underlying character
lists: some suffix of `haystack` starts with `needle`. -/
def listIncludes (haystack needle : List Char) : Bool :=
  (List.range (haystack.length + 1)).any fun i =>
    needle.isPrefixOf (haystack.drop i)

/-- JavaScript `s.includes(pat)` for strings. -/
def strIncludes (s pat : String) : Bool :=
  listIncludes s.toList pat.toList

/-- JavaScript `s.toLowerCase()` (ASCII case folding). -/
def lowerStr (s : String) : String :=
  String.mk (s.toList.map Char.toLower)

/-- A product record, with the fields that `Products.tsx` reads when
filtering (`product.name`, `product.category`, `product.sku`). -/
structure Product where
  id : Nat
  name : String
  category : String
  sku : String
deriving DecidableEq, Repr

/-- The per-record match used by `filteredProducts` in
`Products.tsx` (lines 89-98): the debounced term is compared
case-insensitively against name, category and sku, OR-combined. -/
def productMatches (term : String) (p : Product) : Bool :=
  strIncludes (lowerStr p.name) (lowerStr term) ||
  strIncludes (lowerStr p.category) (lowerStr term) ||
  strIncludes (lowerStr p.sku) (lowerStr term)

/-- `FilterEngine.apply`, embedded from `filteredProducts` in
`Products.tsx`: `debouncedSearch ? allProducts.filter(...) : allProducts`
(an empty JS string is falsy, so the empty term passes the list through). -/
def filterApply (items : List Product) (term : String) : List Product :=
  if term = "" then items else items.filter (productMatches term)

/- ## UsersPage state machine (UserPage.tsx) -/

structure CompanyInfo where
  name : String
deriving DecidableEq, Repr

structure AddressInfo where
  city : String
deriving DecidableEq, Repr

/-- The `User` record of `UserPage.tsx`. -/
structure User where
  id : String
  name : String
  email : String
  phone : String
  website : String
  company : CompanyInfo
  address : AddressInfo
deriving DecidableEq, Repr

/-- One page returned by `fetchUsersPage` in `UserPage.tsx`:
`{ users, nextPage }` where `nextPage` is `undefined` past `MAX_PAGE`. -/
structure UsersApiPage where
  users : List User
  nextPage : Option Nat
deriving DecidableEq, Repr

/-- The state of the `UsersPage` component together with its
`useInfiniteQuery` cache: the loaded pages, the number of outstanding fetch
promises (`isFetchingNextPage` is `inFlight > 0`), the query error state,
and the controlled search input `emailQuery`.  `fetchesIssued` counts every
fetch ever started, so that "no second fetch is issued" is observable. -/
structure UsersPageState where
  pages : List UsersApiPage
  inFlight : Nat
  isError : Bool
  lastError : Option String
  emailQuery : String
  fetchesIssued : Nat
deriving DecidableEq, Repr

/-- `hasNextPage` of the infinite query: `getNextPageParam` is
`(last) => last.nextPage`, so there is a next page exactly when the last
loaded page carries a `nextPage` value (false before any page loads). -/
def hasNextPage (s : UsersPageState) : Bool :=
  match s.pages.getLast? with
  | some p => p.nextPage.isSome
  | none => false

/-- Events driving the `UsersPage` controller: the sentinel's
`IntersectionObserver` firing with `isIntersecting`, the resolution or
rejection of an outstanding page fetch, and typing in the search input. -/
inductive UsersEvent where
  | sentinelIntersect
  | fetchSuccess (page : UsersApiPage)
  | fetchFailure (msg : String)
  | setEmailQuery (q : String)
deriving DecidableEq, Repr

/-- One transition of the `UsersPage` controller, embedded from
`UserPage.tsx`: the observer callback (lines 402-412) calls
`fetchNextPage()` only when `entry.isIntersecting && hasNextPage &&
!isFetchingNextPage && !emailQuery`; a resolved fetch appends its page to
the infinite-query cache and recomputes the next page param; a rejected
fetch sets the query error without touching the cached pages; typing
updates `emailQuery`. -/
def step (e : UsersEvent) (s : UsersPageState) : UsersPageState :=
  match e with
  | .sentinelIntersect =>
      if hasNextPage s && s.inFlight == 0 && s.emailQuery == "" then
        { s with inFlight := s.inFlight + 1, fetchesIssued := s.fetchesIssued + 1 }
      else s
  | .fetchSuccess p =>
      if 0 < s.inFlight then
        { s with pages := s.pages ++ [p], inFlight := s.inFlight - 1,
                 isError := false, lastError := none }
      else s
  | .fetchFailure m =>
      if 0 < s.inFlight then
        { s with inFlight := s.inFlight - 1, isError := true, lastError := some m }
      else s
  | .setEmailQuery q => { s with emailQuery := q }

/-- Run a sequence of events from a state. -/
def run (s : UsersPageState) (tr : List UsersEvent) : UsersPageState :=
  tr.foldl (fun st e => step e st) s

/-- The component state right after mount: no page cached yet and the
initial query fetch (page 1) outstanding. -/
def initialUsersPageState : UsersPageState :=
  { pages := [], inFlight := 1, isError := false, lastError := none,
    emailQuery := "", fetchesIssued := 1 }

/-- `loadedUsers` in `UserPage.tsx`: `data?.pages.flatMap((p) => p.users)`. -/
def loadedUsers (s : UsersPageState) : List User :=
  (s.pages.map UsersApiPage.users).flatten

/-- The per-user search match of `UserPage.tsx`:
`u.email.toLowerCase().includes(emailQuery.toLowerCase())`. -/
def userMatches (term : String) (u : User) : Bool :=
  strIncludes (lowerStr u.email) (lowerStr term)

/-- `filtered` in `UserPage.tsx` (lines 79-83): `emailQuery ?
loadedUsers.filter(...) : loadedUsers`. -/
def filteredUsers (s : UsersPageState) : List User :=
  if s.emailQuery = "" then loadedUsers s
  else (loadedUsers s).filter (userMatches s.emailQuery)

/-- What the component renders, embedded from the early return in
`UserPage.tsx`: `if (isError) return <div>Error: {error.message}</div>`,
otherwise the virtualized rows over the filtered users. -/
inductive PageView where
  | errorScreen (msg : String)
  | listView (rows : List User)
deriving DecidableEq, Repr

/-- The render output of `UsersPage` as a function of its state. -/
def render (s : UsersPageState) : PageView :=
  if s.isError then .errorScreen ("Error: " ++ s.lastError.getD "")
  else .listView (filteredUsers s)

/- ## Debounce (useDebounce in SomePage.tsx, lines 49-63) -/

/-- The observable output of `useDebounce`, embedded from its effect:
every change of `value` at time `t` schedules `setDebouncedValue(value)`
via `setTimeout(..., D)` for time `t + D`, and the effect cleanup
(`clearTimeout`) cancels the pending timer when the next change arrives
before it fires.  Given the strictly increasing timed input events, this
returns the published `(time, value)` events. -/
def debounceOutputs (D : Nat) : List (Nat × String) → List (Nat × String)
  | [] => []
  | (t, v) :: [] => [(t + D, v)]
  | (t, v) :: (t2, v2) :: rest =>
      if t2 < t + D then debounceOutputs D ((t2, v2) :: rest)
      else (t + D, v) :: debounceOutputs D ((t2, v2) :: rest)

/- ## Decimal rendering and parsing (toString / parseInt) -/

/-- Decimal rendering of a natural number as JavaScript
`n.toString()` produces it: most significant digit first.  The `fuel`
argument only bounds the recursion depth. -/
def decRender (fuel n : Nat) : List Char :=
  match fuel with
  | 0 => []
  | fuel + 1 =>
      if n < 10 then [Nat.digitChar n]
      else decRender fuel (n / 10) ++ [Nat.digitChar (n % 10)]

/-- JavaScript `n.toString()` for a natural number. -/
def natToDecimal (n : Nat) : String :=
  String.mk (decRender (n + 1) n)

/-- JavaScript `parseInt(s, 10)` restricted to all-digit strings (the only
strings the round trip feeds it): accumulate the decimal digits. -/
def parseDec (s : String) : Nat :=
  s.toList.foldl (fun acc c => acc * 10 + (c.toNat - 48)) 0

/- ## LocationSync (Products.tsx and Reviews.tsx) -/

/-- The URL write effect of `Products.tsx` (lines 60-75) as key-value
parameters: `params.set("page", currentPage.toString())` and, only for a
non-empty debounced term, `params.set("search", debouncedSearch)`. -/
def writeParams (page : Nat) (search : String) : List (String × String) :=
  if search = "" then [("page", natToDecimal page)]
  else [("page", natToDecimal page), ("search", search)]

/-- The initial URL read of `Products.tsx` (lines 36-38):
`parseInt(searchParams.get("page") || "1", 10)`. -/
def readPage (params : List (String × String)) : Nat :=
  parseDec ((params.lookup "page").getD "1")

/-- The initial URL read of `Products.tsx`:
`searchParams.get("search") || ""`. -/
def readSearch (params : List (String × String)) : String :=
  (params.lookup "search").getD ""

/-- The query string `?${params.toString()}` built by the write effect of
`Products.tsx` (page first, then the optional search term). -/
def renderQuery (page : Nat) (search : String) : String :=
  if search = "" then "?page=" ++ natToDecimal page
  else "?page=" ++ natToDecimal page ++ "&search=" ++ search

/-- The URL write effect of `Products.tsx` acting on the browser history
(head = current entry): `navigate(newUrl)` (no `replace` option, hence a
pushed entry) guarded by `window.location.search !== newUrl`. -/
def productsWriteEffect (hist : List String) (page : Nat) (search : String) :
    List String :=
  let newUrl := renderQuery page search
  if hist.headD "" = newUrl then hist else newUrl :: hist

/-- The URL write effect of `Reviews.tsx` (lines 26-28):
``navigate(`?page=${currentPage}`, { replace: true })`` — unconditionally
replaces the current history entry. -/
def reviewsWriteEffect (hist : List String) (page : Nat) : List String :=
  ("?page=" ++ natToDecimal page) :: hist.tail

/- ## goToPage (Products.tsx lines 102-106, Reviews.tsx lines 39-43) -/

/-- `goToPage` of both `Products.tsx` and `Reviews.tsx`:
`if (page < 1 || page > totalPages) return; setCurrentPage(page)` —
returns the resulting current page. -/
def goToPage (totalPages : Nat) (currentPage page : Int) : Int :=
  if page < 1 || page > (totalPages : Int) then currentPage else page

/-- `totalPages` of `Products.tsx`:
`Math.ceil(totalProducts / ITEMS_PER_PAGE)` with `ITEMS_PER_PAGE = 8`. -/
def totalPagesOf (totalProducts : Nat) : Nat :=
  (totalProducts + 7) / 8

/- ## Theorems -/

/-- C1 (corrected): with itemHeight > 0, viewportHeight > 0 and a
non-negative scroll offset, `WindowProjector.project` returns `start ≥ 0`
and `end ≤ itemCount`; `start ≤ end` holds whenever `start ≤ itemCount`
(in particular whenever the scroll offset lies within the content); for
`itemCount = 0` the returned half-open range contains no index, and no
error occurs (the function is total).  The unrestricted chain
`0 ≤ start ≤ end ≤ itemCount` of the original claim is refuted by
`windowProjector_range_start_end_cex`. -/
theorem windowProjector_range_bounds (scrollOffset viewportHeight itemHeight : ℚ)
    (itemCount overscan : ℕ) (hS : 0 ≤ scrollOffset) (hV : 0 < viewportHeight)
    (hH : 0 < itemHeight) :
    0 ≤ (WindowProjector.project scrollOffset viewportHeight itemHeight itemCount overscan).1 ∧
    (WindowProjector.project scrollOffset viewportHeight itemHeight itemCount overscan).2 ≤ itemCount ∧
    ((WindowProjector.project scrollOffset viewportHeight itemHeight itemCount overscan).1 ≤ itemCount →
      (WindowProjector.project scrollOffset viewportHeight itemHeight itemCount overscan).1 ≤
        (WindowProjector.project scrollOffset viewportHeight itemHeight itemCount overscan).2) ∧
    (itemCount = 0 → ∀ i : ℤ,
      ¬((WindowProjector.project scrollOffset viewportHeight itemHeight itemCount overscan).1 ≤ i ∧
        i < (WindowProjector.project scrollOffset viewportHeight itemHeight itemCount overscan).2)) := by
  simp only [WindowProjector.project]
  refine ⟨le_max_left _ _, min_le_left _ _, ?_, ?_⟩
  · intro h
    refine le_min h (max_le ?_ ?_)
    · have h0 : (0:ℚ) ≤ (scrollOffset + viewportHeight) / itemHeight :=
        div_nonneg (by linarith) hH.le
      have hceil := Int.ceil_nonneg h0
      have hov : (0:ℤ) ≤ (overscan : ℤ) := Int.natCast_nonneg overscan
      linarith
    · have hdiv : scrollOffset / itemHeight ≤ (scrollOffset + viewportHeight) / itemHeight :=
        (div_le_div_iff_of_pos_right hH).mpr (by linarith)
      have h1 := Int.floor_le_ceil (scrollOffset / itemHeight)
      have h2 := Int.ceil_mono hdiv
      have hov : (0:ℤ) ≤ (overscan : ℤ) := Int.natCast_nonneg overscan
      linarith
  · intro hc i hi
    subst hc
    simp only [Nat.cast_zero] at hi
    obtain ⟨hi1, hi2⟩ := hi
    have h1 : min (0:ℤ) (⌈(scrollOffset + viewportHeight) / itemHeight⌉ + overscan) ≤ 0 :=
      min_le_left _ _
    have h2 : (0:ℤ) ≤ max 0 (⌊scrollOffset / itemHeight⌋ - overscan) := le_max_left _ _
    omega

/-- C1 witness: the amended bounds evaluated at a concrete input. -/
theorem windowProjector_range_bounds_witness :
    (0:ℚ) ≤ 0 ∧ (0:ℚ) < 10 ∧ (0:ℚ) < 10 ∧
    (0 ≤ (WindowProjector.project 0 10 10 3 1).1 ∧
     (WindowProjector.project 0 10 10 3 1).2 ≤ 3 ∧
     ((WindowProjector.project 0 10 10 3 1).1 ≤ 3 →
       (WindowProjector.project 0 10 10 3 1).1 ≤ (WindowProjector.project 0 10 10 3 1).2) ∧
     ((3:ℕ) = 0 → ∀ i : ℤ,
       ¬((WindowProjector.project 0 10 10 3 1).1 ≤ i ∧
         i < (WindowProjector.project 0 10 10 3 1).2))) :=
  ⟨by norm_num, by norm_num, by norm_num,
   windowProjector_range_bounds 0 10 10 3 1 (by norm_num) (by norm_num) (by norm_num)⟩

/-- C1 counterexample: at `scrollOffset = 100`, `viewportHeight = 10`,
`itemHeight = 10`, `itemCount = 5`, `overscan = 0` the spec formulas give
`start = 10` and `end = 5`, so the claimed chain
`0 ≤ start ≤ end ≤ itemCount` fails (`start > end`). -/
theorem windowProjector_range_start_end_cex :
    ¬(0 ≤ (WindowProjector.project 100 10 10 5 0).1 ∧
      (WindowProjector.project 100 10 10 5 0).1 ≤ (WindowProjector.project 100 10 10 5 0).2 ∧
      (WindowProjector.project 100 10 10 5 0).2 ≤ 5) := by
  have h : WindowProjector.project 100 10 10 5 0 = (10, 5) := by
    simp only [WindowProjector.project]
    norm_num
  rw [h]
  norm_num

/-- C7 (corrected): the size `end - start` of the projected range is at
most `⌈viewportHeight / itemHeight⌉ + 2 * overscan + 1` — a constant
independent of `itemCount`, so the rendered range never grows with the
number of loaded items.  The original bound without the `+1` slack is
refuted by `windowProjector_size_cex`. -/
theorem windowProjector_size_bound (scrollOffset viewportHeight itemHeight : ℚ)
    (itemCount overscan : ℕ) :
    (WindowProjector.project scrollOffset viewportHeight itemHeight itemCount overscan).2 -
      (WindowProjector.project scrollOffset viewportHeight itemHeight itemCount overscan).1 ≤
      ⌈viewportHeight / itemHeight⌉ + 2 * overscan + 1 := by
  simp only [WindowProjector.project]
  have hend : min ((itemCount : ℤ)) (⌈(scrollOffset + viewportHeight) / itemHeight⌉ + overscan) ≤
      ⌈(scrollOffset + viewportHeight) / itemHeight⌉ + overscan := min_le_right _ _
  have hstart : ⌊scrollOffset / itemHeight⌋ - overscan ≤
      max 0 (⌊scrollOffset / itemHeight⌋ - overscan) := le_max_right _ _
  have hsplit : ⌈(scrollOffset + viewportHeight) / itemHeight⌉ ≤
      ⌈scrollOffset / itemHeight⌉ + ⌈viewportHeight / itemHeight⌉ := by
    rw [add_div]
    exact Int.ceil_add_le _ _
  have hcf : ⌈scrollOffset / itemHeight⌉ ≤ ⌊scrollOffset / itemHeight⌋ + 1 :=
    Int.ceil_le_floor_add_one _
  linarith

/-- C7 counterexample: at `scrollOffset = 9`, `viewportHeight = 9`,
`itemHeight = 10`, `itemCount = 1000`, `overscan = 0` the projected range
is `[0, 2)` of size `2`, exceeding the claimed bound
`viewportHeight/itemHeight + 2*overscan = 0.9`. -/
theorem windowProjector_size_cex :
    ¬((((WindowProjector.project 9 9 10 1000 0).2 -
        (WindowProjector.project 9 9 10 1000 0).1 : ℤ) : ℚ) ≤ (9:ℚ)/10 + 2 * 0) := by
  have h : WindowProjector.project 9 9 10 1000 0 = (0, 2) := by
    have h1 : ⌊(9:ℚ)/10⌋ = 0 := by norm_num
    have h2 : ⌈((9:ℚ) + 9)/10⌉ = 2 := by
      rw [show ((9:ℚ) + 9)/10 = 9/5 by norm_num, Int.ceil_eq_iff]
      constructor <;> norm_num
    simp only [WindowProjector.project, h1, h2]
    norm_num
  rw [h]
  norm_num

/-- A concrete demo user, parameterized by an index. -/
def mkDemoUser (i : Nat) : User :=
  { id := natToDecimal i, name := "User " ++ natToDecimal i,
    email := "user" ++ natToDecimal i ++ "@example.com",
    phone := "555-0100", website := "example.com",
    company := { name := "Acme" }, address := { city := "Springfield" } }

/-- A state with one loaded page, a next page available, and one fetch
outstanding. -/
def stInFlight1 : UsersPageState :=
  { pages := [{ users := (List.range 5).map mkDemoUser, nextPage := some 2 }],
    inFlight := 1, isError := false, lastError := none,
    emailQuery := "", fetchesIssued := 2 }

/-- C2 (confirmed): single-flight invariant.  Along every event trace from
the mounted component the number of outstanding page fetches never exceeds
one, and a sentinel trigger arriving while a fetch is in flight
(`isFetchingNextPage`, i.e. `0 < inFlight`) is a no-op: the state is
unchanged and no second fetch is issued. -/
theorem fetchCoordinator_single_flight :
    (∀ tr : List UsersEvent, (run initialUsersPageState tr).inFlight ≤ 1) ∧
    (∀ s : UsersPageState, 0 < s.inFlight → step .sentinelIntersect s = s) := by
  constructor
  · have key : ∀ (tr : List UsersEvent) (s : UsersPageState),
        s.inFlight ≤ 1 → (run s tr).inFlight ≤ 1 := by
      intro tr
      induction tr with
      | nil => intro s h; simpa [run] using h
      | cons e tr ih =>
          intro s h
          have hstep : (step e s).inFlight ≤ 1 := by
            cases e <;> simp only [step] <;> (try split) <;> simp_all
          simpa [run] using ih (step e s) hstep
    intro tr
    exact key tr initialUsersPageState (by decide)
  · intro s h
    have hne : s.inFlight ≠ 0 := Nat.pos_iff_ne_zero.mp h
    simp only [step]
    rw [if_neg]
    simp only [Bool.and_eq_true, beq_iff_eq]
    intro hc
    exact hne hc.1.2

/-- C2 witness: a trigger while a fetch is outstanding leaves the concrete
state `stInFlight1` unchanged. -/
theorem fetchCoordinator_single_flight_witness :
    0 < stInFlight1.inFlight ∧ step .sentinelIntersect stInFlight1 = stInFlight1 :=
  ⟨by decide, fetchCoordinator_single_flight.2 stInFlight1 (by decide)⟩

/-- C3 (confirmed): while the active filter term is non-empty the
auto-fetch trigger never fires — the sentinel event leaves the state
unchanged, so no next-page request is issued — and if no loaded user
matches the term the filtered sequence is empty. -/
theorem filter_suppresses_autofetch (s : UsersPageState) (h : s.emailQuery ≠ "") :
    step .sentinelIntersect s = s ∧
    ((∀ u ∈ loadedUsers s, userMatches s.emailQuery u = false) →
      filteredUsers s = []) := by
  constructor
  · simp only [step]
    rw [if_neg]
    simp only [Bool.and_eq_true, beq_iff_eq]
    intro hc
    exact h hc.2
  · intro hall
    simp only [filteredUsers, if_neg h]
    refine List.filter_eq_nil_iff.mpr ?_
    intro u hu
    simp [hall u hu]

/-- A 20-item loaded set with the filter term `"zz-no-match"` active. -/
def st20 : UsersPageState :=
  { pages := [{ users := (List.range 10).map mkDemoUser, nextPage := some 2 },
              { users := (List.range' 10 10).map mkDemoUser, nextPage := some 3 }],
    inFlight := 0, isError := false, lastError := none,
    emailQuery := "zz-no-match", fetchesIssued := 2 }

/-- C3 witness: against the concrete 20-item loaded set, the term
`"zz-no-match"` yields an empty filtered sequence and the trigger is
suppressed. -/
theorem filter_suppresses_autofetch_witness :
    st20.emailQuery ≠ "" ∧ step .sentinelIntersect st20 = st20 ∧
      filteredUsers st20 = [] :=
  ⟨by decide, (filter_suppresses_autofetch st20 (by decide)).1,
   (filter_suppresses_autofetch st20 (by decide)).2 (by decide)⟩

/-- C4 (confirmed): `FilterEngine.apply` is idempotent, is the identity on
the empty term, and for a non-empty term keeps exactly the records one of
whose configured fields (name, category, sku) contains the term as a
case-insensitive substring. -/
theorem filterEngine_apply_spec (items : List Product) (t : String) :
    filterApply (filterApply items t) t = filterApply items t ∧
    filterApply items "" = items ∧
    (∀ p : Product, t ≠ "" →
      (p ∈ filterApply items t ↔ p ∈ items ∧ productMatches t p = true)) := by
  refine ⟨?_, by simp [filterApply], ?_⟩
  · by_cases h : t = ""
    · simp [filterApply, h]
    · simp [filterApply, h, List.filter_filter]
  · intro p h
    simp [filterApply, h, List.mem_filter]

/-- A concrete product for the C4 witness. -/
def demoProduct : Product :=
  { id := 1, name := "Wireless Mouse", category := "Electronics", sku := "WM-001" }

/-- C4 witness: the membership characterization evaluated at a concrete
product and the non-empty term `"mouse"`. -/
theorem filterEngine_apply_spec_witness :
    "mouse" ≠ "" ∧
    (demoProduct ∈ filterApply [demoProduct] "mouse" ↔
      demoProduct ∈ [demoProduct] ∧ productMatches "mouse" demoProduct = true) :=
  ⟨by decide, (filterEngine_apply_spec [demoProduct] "mouse").2.2 demoProduct (by decide)⟩

/-- C5 (confirmed): the debounce is trailing.  Issuing the terms `"a"`,
`"ab"`, `"abc"` with each input arriving before `D` ms have elapsed since
the previous one publishes exactly one debounced term — `"abc"`, at `D` ms
after the last input — and publishes nothing before that. -/
theorem useDebounce_trailing (D t0 t1 t2 : Nat)
    (h1 : t1 < t0 + D) (h2 : t2 < t1 + D) :
    debounceOutputs D [(t0, "a"), (t1, "ab"), (t2, "abc")] = [(t2 + D, "abc")] := by
  simp [debounceOutputs, h1, h2]

/-- C5 witness: with `D = 300` and inputs at `0`, `150`, `300` ms
(`D/2` apart), the only publication is `("abc", 600)`. -/
theorem useDebounce_trailing_witness :
    150 < 0 + 300 ∧ 300 < 150 + 300 ∧
    debounceOutputs 300 [(0, "a"), (150, "ab"), (300, "abc")] = [(600, "abc")] :=
  ⟨by decide, by decide, useDebounce_trailing 300 0 150 300 (by decide) (by decide)⟩

/-- Parsing the decimal rendering of `n` recovers `n`: auxiliary fold
lemma over `decRender`. -/
theorem decRender_foldl (fuel n : Nat) (h : n < fuel) :
    (decRender fuel n).foldl (fun acc c => acc * 10 + (c.toNat - 48)) 0 = n := by
  induction fuel generalizing n with
  | zero => omega
  | succ fuel ih =>
      by_cases h10 : n < 10
      · have hd : (Nat.digitChar n).toNat = n + 48 := by
          interval_cases n <;> rfl
        simp [decRender, h10, List.foldl, hd]
      · have hrec : n / 10 < fuel := by
          have : n / 10 < n := Nat.div_lt_self (by omega) (by omega)
          omega
        have hd : (Nat.digitChar (n % 10)).toNat = n % 10 + 48 := by
          have : n % 10 < 10 := Nat.mod_lt _ (by omega)
          interval_cases hm : (n % 10) <;> decide
        simp only [decRender, h10, if_false, List.foldl_append, List.foldl, ih _ hrec, hd]
        omega

/-- `parseInt(n.toString(), 10) = n`. -/
theorem parseDec_natToDecimal (n : Nat) : parseDec (natToDecimal n) = n := by
  have h : (String.mk (decRender (n + 1) n)).toList = decRender (n + 1) n := rfl
  simp only [parseDec, natToDecimal, h]
  exact decRender_foldl (n + 1) n (Nat.lt_succ_self n)

/-- C6 (confirmed): the write/read round trip of `LocationSync` through
the URL parameter store is the identity on `QueryState`: writing
`{page, search}` as `Products.tsx`'s URL effect does and reading it back
as its initial URL read does returns the same page and search term. -/
theorem locationSync_round_trip (p : Nat) (s : String) :
    readPage (writeParams p s) = p ∧ readSearch (writeParams p s) = s := by
  constructor
  · by_cases h : s = "" <;>
      simp [readPage, writeParams, h, List.lookup, parseDec_natToDecimal]
  · by_cases h : s = "" <;>
      simp [readSearch, writeParams, h, List.lookup]

/-- C8 (corrected): the source draws no replace-vs-push distinction
between filter-term and page changes.  The `Products.tsx` write effect
pushes a new history entry whenever the new query string differs from the
current one — for filter-term changes just as for page changes — while the
`Reviews.tsx` write effect unconditionally replaces the current entry —
for page changes included.  The claimed distinction is refuted by
`locationSync_history_cex`. -/
theorem locationSync_history_behavior (hist : List String) (p : Nat) (s : String)
    (h : hist.headD "" ≠ renderQuery p s) :
    productsWriteEffect hist p s = renderQuery p s :: hist ∧
    reviewsWriteEffect hist p = ("?page=" ++ natToDecimal p) :: hist.tail := by
  constructor
  · simp only [productsWriteEffect]
    rw [if_neg h]
  · rfl

/-- C8 witness: a filter-term change on `Products.tsx` pushes the new
query string on top of the old one, and a page change on `Reviews.tsx`
replaces the current entry. -/
theorem locationSync_history_behavior_witness :
    (["?page=1"].headD "" ≠ renderQuery 1 "ab") ∧
    productsWriteEffect ["?page=1"] 1 "ab" = renderQuery 1 "ab" :: ["?page=1"] ∧
    reviewsWriteEffect ["?page=1"] 1 = ("?page=" ++ natToDecimal 1) :: ["?page=1"].tail :=
  ⟨by decide, (locationSync_history_behavior ["?page=1"] 1 "ab" (by decide)).1,
   (locationSync_history_behavior ["?page=1"] 1 "ab" (by decide)).2⟩

/-- C8 counterexample: after a filter-term change (`""` to `"ab"`) the
`Products.tsx` write leaves the previous location reachable via back
navigation (it pushed, not replaced), and after a page change (`1` to `2`)
the `Reviews.tsx` write makes the previous location unreachable (it
replaced, not pushed) — both directions of the claimed distinction fail. -/
theorem locationSync_history_cex :
    "?page=1" ∈ (productsWriteEffect ["?page=1"] 1 "ab").tail ∧
    "?page=1" ∉ reviewsWriteEffect ["?page=1"] 2 := by
  decide

/-- C9 (corrected): when a page fetch fails, the already-loaded items are
indeed not cleared — the loaded and filtered sequences are unchanged — but
instead of surfacing a dismissible status over the still-operating list,
the component replaces the whole list with a non-dismissible error screen
(`if (isError) return <div>Error: ...</div>`).  That the list does not
continue rendering is shown by `fetch_failure_view_cex`. -/
theorem fetch_failure_preserves_loaded (s : UsersPageState) (m : String)
    (h : 0 < s.inFlight) :
    loadedUsers (step (.fetchFailure m) s) = loadedUsers s ∧
    filteredUsers (step (.fetchFailure m) s) = filteredUsers s ∧
    render (step (.fetchFailure m) s) = .errorScreen ("Error: " ++ m) := by
  simp [step, h, loadedUsers, filteredUsers, render]

/-- A state with five loaded users, a next page, and the page-2 fetch
outstanding, about to fail. -/
def stBeforeFailure : UsersPageState :=
  { pages := [{ users := (List.range 5).map mkDemoUser, nextPage := some 2 }],
    inFlight := 1, isError := false, lastError := none,
    emailQuery := "", fetchesIssued := 2 }

/-- C9 witness: the amended behaviour at the concrete state
`stBeforeFailure`. -/
theorem fetch_failure_preserves_loaded_witness :
    0 < stBeforeFailure.inFlight ∧
    (loadedUsers (step (.fetchFailure "Failed to fetch users") stBeforeFailure) =
        loadedUsers stBeforeFailure ∧
      filteredUsers (step (.fetchFailure "Failed to fetch users") stBeforeFailure) =
        filteredUsers stBeforeFailure ∧
      render (step (.fetchFailure "Failed to fetch users") stBeforeFailure) =
        .errorScreen ("Error: " ++ "Failed to fetch users")) :=
  ⟨by decide,
   fetch_failure_preserves_loaded stBeforeFailure "Failed to fetch users" (by decide)⟩

/-- C9 counterexample: after the failed fetch the component does not keep
rendering the previously loaded (filtered) items — it renders the error
screen instead — refuting "the visible window and filter continue to
operate over those previously loaded items". -/
theorem fetch_failure_view_cex :
    render (step (.fetchFailure "Failed to fetch users") stBeforeFailure) ≠
      PageView.listView
        (filteredUsers (step (.fetchFailure "Failed to fetch users") stBeforeFailure)) := by
  decide

/-- C10 (confirmed): `goToPage` of `Products.tsx` and `Reviews.tsx` leaves
the current page unchanged for every out-of-range target (`p < 1` or
`p > totalPages`): out-of-range requests are silent no-ops, neither errors
nor clamps. -/
theorem goToPage_out_of_range_noop (totalPages : Nat) (currentPage p : Int)
    (h : p < 1 ∨ p > (totalPages : Int)) :
    goToPage totalPages currentPage p = currentPage := by
  rcases h with h | h <;> simp [goToPage, h]

/-- C10 witness: requesting page 9 when only 5 pages exist keeps the
current page 3. -/
theorem goToPage_out_of_range_noop_witness :
    ((9:Int) < 1 ∨ (9:Int) > ((5:Nat) : Int)) ∧ goToPage 5 3 9 = 3 :=
  ⟨by decide, goToPage_out_of_range_noop 5 3 9 (by decide)⟩
